import Mathlib

/-!
Shallow embedding of the AgroHelpDesk orchestration and decision engine
(`backend/app` of the repository): the orchestrator pipeline
(`core/orchestrator.py`), the automation policy (`agents/runbook_master.py`),
the knowledge resolver (`agents/agro_brain.py`), the classifier fallback
(`agents/field_sense.py`, `utils/response_builders.py`) and the static
configuration tables (`config/agent_config.py`).

External collaborators (the LLM reasoning service, the retrieval service, the
ticketing service, the random number generator, uuid and clock) are modelled
as oracle inputs: each stage is a pure function of its Python inputs plus the
outcome the collaborator would have produced.  Python floats that only ever
hold decimal literals and are compared against decimal literals are modelled
as rationals; Python dicts produced by the agents are modelled as structures
whose fields are exactly the keys the code writes and reads.
-/

namespace AgroHelpDesk

/-- Python substring test `needle in haystack` on lists of characters:
true iff `needle` occurs contiguously in the list. -/
def charsContain (needle : List Char) : List Char → Bool
  | [] => needle.isEmpty
  | c :: rest => List.isPrefixOf needle (c :: rest) || charsContain needle rest

/-- Python `needle in haystack` for strings. -/
def strContains (haystack needle : String) : Bool :=
  charsContain needle.data haystack.data

/-- Python `str.lower()` (the categories and keywords involved are ASCII, so
per-character lowering is faithful). -/
def str_lower (s : String) : String := ⟨s.data.map Char.toLower⟩

/-- Python truthiness of an optional string (`None`, absent key and `""` are
all falsy; any non-empty string is truthy). -/
def isTruthy : Option String → Bool
  | none => false
  | some s => !s.isEmpty

/-- Python `str(x)` for an optional string: `str(None) = "None"`.  (When the
key is absent `dict.get(key, "")` yields `""` instead; both behave the same in
every test the code performs on the result.) -/
def pyStr : Option String → String
  | none => "None"
  | some s => s

/-- `FlowState` enum of `schemas/orchestrator_schemas.py`. -/
inductive FlowState where
  | INTENTION_CHECK
  | NEEDS_CLARIFICATION
  | GATHERING_CONTEXT
  | KNOWLEDGE_CHECK
  | HUMAN_ESCALATION
  | AUTOMATION_CHECK
  | WORK_ORDER_CREATED
  | RUNBOOK_EXECUTION
  | EXECUTION_SUCCESS
  | EXECUTION_FAILED
  | COMPLETED
  deriving DecidableEq, Repr

/-- `DecisionType` enum of `schemas/orchestrator_schemas.py`. -/
inductive DecisionType where
  | INTENTION_CLEAR
  | INTENTION_UNCLEAR
  | PROCEDURE_KNOWN
  | PROCEDURE_UNKNOWN
  | CAN_AUTOMATE
  | CANNOT_AUTOMATE
  | EXECUTION_SUCCESS
  | EXECUTION_FAILED
  deriving DecidableEq, Repr

/-- The `entidades` map produced by FieldSense (`schemas/llm_responses.py`
documents the keys; each is a string or null).  `none` stands for a null or
absent entry. -/
structure Entidades where
  maquina : Option String := none
  talhao : Option String := none
  sintomas : Option String := none
  praga : Option String := none
  cultura : Option String := none
  acao_solicitada : Option String := none
  localizacao : Option String := none
  operador : Option String := none
  deriving DecidableEq, Repr

/-- Classification record produced by FieldSense (pydantic
`FieldSenseResponse` after `model_dump`, as read by the orchestrator).  The
`local` entity key is called `localizacao` here because `local` is a reserved
word. -/
structure FieldSenseData where
  intencao : String
  categoria : String
  entidades : Entidades
  confianca : ℚ
  severidade : String
  observacoes : Option String
  perguntas_sugeridas : Option (List String)
  deriving DecidableEq, Repr

/-- Knowledge record produced by AgroBrain: keys of pydantic
`AgroBrainResponse` plus the bookkeeping keys the response builders add
(`method`, `reason`, `error`, `raw_response`, `search_results_count`). -/
structure BrainResult where
  conhecimento : String
  riscos : String
  recomendacoes : String
  fontes : List String
  procedimento_conhecido : Bool
  nivel_complexidade : String
  requer_especialista : Bool
  method : String
  reason : Option String := none
  error : Option String := none
  raw_response : Option String := none
  search_results_count : Option Nat := none
  deriving DecidableEq, Repr

/-- `RunbookExecution` dict built by `RunbookMaster._execute_runbook`. -/
structure RunbookExecution where
  runbook_name : String
  steps_completed : Nat
  total_steps : Nat
  success : Bool
  execution_log : List String
  error_message : Option String
  deriving DecidableEq, Repr

/-- Work-order dict built by `WorkOrderPlugin.build_work_order_dict`. -/
structure WorkOrderDict where
  id : String
  partition_key : String
  order_id : String
  title : String
  description : String
  category : String
  priority : String
  status : String
  assigned_specialist : String
  machine_id : Option String
  field_id : Option String
  symptoms : Option String
  requester_id : Option String
  requester_contact : Option String
  estimated_time_hours : ℚ
  created_at : String
  updated_at : String
  completed_at : Option String
  notes : List String
  attachments : List String
  deriving DecidableEq, Repr

/-- Result dict of `RunbookMaster._process_internal`. -/
structure RunbookResult where
  decision_type : DecisionType
  action : String
  message : String
  can_automate : Bool
  work_order : Option WorkOrderDict
  runbook_execution : Option RunbookExecution
  escalation_reason : Option String := none
  deriving DecidableEq, Repr

/-- `FlowDecision` audit record of `schemas/orchestrator_schemas.py`. -/
structure FlowDecision where
  decision_type : DecisionType
  agent_name : String
  reason : String
  confidence : ℚ
  next_state : FlowState
  deriving DecidableEq, Repr

/-- `AgentResponseSchema` entry as the claims use it: which agent ran and
whether it succeeded.  The per-agent payload is threaded through the model
directly instead of through this audit record. -/
structure AgentResponse where
  agent_name : String
  success : Bool
  deriving DecidableEq, Repr

/-- `ClarificationRequest` of `schemas/orchestrator_schemas.py`. -/
structure ClarificationRequest where
  reason : String
  missing_info : List String
  suggested_questions : List String
  current_understanding : String
  deriving DecidableEq, Repr

/-- `OrchestratorResponse` of `schemas/orchestrator_schemas.py` (timing field
omitted). -/
structure OrchestratorResponse where
  success : Bool
  message : String
  flow_state : FlowState
  decisions : List FlowDecision
  agent_responses : List AgentResponse
  work_order : Option WorkOrderDict
  clarification : Option ClarificationRequest
  runbook_execution : Option RunbookExecution
  deriving DecidableEq, Repr

/-! ## Static configuration (`config/agent_config.py`) -/

/-- `CATEGORY_MAPPING`: FieldSense categories to work-order schema
categories, modelled as an association list. -/
def CATEGORY_MAPPING : List (String × String) :=
  [("falha_mecanica", "maquinario"),
   ("fitossanidade", "praga"),
   ("estoque_insumos", "insumos"),
   ("meteorologia", "outro"),
   ("sistema_ti", "outro"),
   ("rh_rural", "outro"),
   ("manutencao_preventiva", "maquinario"),
   ("operacao_maquina", "maquinario"),
   ("duvida_operacional", "outro"),
   ("cumprimento", "outro"),
   ("outro", "outro")]

/-- `SPECIALIST_MAPPING`: category to assigned specialist type. -/
def SPECIALIST_MAPPING : List (String × String) :=
  [("falha_mecanica", "Mecânico de Máquinas Agrícolas"),
   ("fitossanidade", "Agrônomo Especialista"),
   ("sistema_ti", "Técnico de TI"),
   ("manutencao_preventiva", "Técnico de Manutenção"),
   ("outro", "Supervisor de Campo")]

/-- `SEVERITY_PRIORITY_MAPPING`: severity to priority. -/
def SEVERITY_PRIORITY_MAPPING : List (String × String) :=
  [("alta", "alta"), ("critica", "critica"), ("media", "media"), ("baixa", "baixa")]

/-- Python `dict.get(key, default)` over an association list. -/
def dictGet (m : List (String × String)) (key default : String) : String :=
  match m.find? (fun p => p.1 = key) with
  | some p => p.2
  | none => default

/-- `get_specialist_for_category`. -/
def get_specialist_for_category (categoria : String) : String :=
  dictGet SPECIALIST_MAPPING categoria "Supervisor de Campo"

/-- `map_category_to_schema`. -/
def map_category_to_schema (fieldsense_category : String) : String :=
  dictGet CATEGORY_MAPPING fieldsense_category "outro"

/-- `get_priority_for_severity`. -/
def get_priority_for_severity (severidade : String) : String :=
  dictGet SEVERITY_PRIORITY_MAPPING severidade "medium"

/-- A runbook definition entry of `RUNBOOK_DEFINITIONS`. -/
structure RunbookDef where
  name : String
  steps : List String
  estimated_time_hours : ℚ
  difficulty : String
  pode_automatizar : Bool
  requer_aprovacao : Bool
  deriving DecidableEq, Repr

/-- `RUNBOOK_DEFINITIONS` of `config/agent_config.py`. -/
def RUNBOOK_DEFINITIONS : List (String × RunbookDef) :=
  [("reset_sistema",
    { name := "Reset de Sistema de Máquina",
      steps := ["Desligar a máquina completamente",
                "Aguardar 30 segundos",
                "Verificar conexões de sensores",
                "Religar o sistema",
                "Verificar códigos de erro"],
      estimated_time_hours := mkRat 1 4, difficulty := "easy",
      pode_automatizar := true, requer_aprovacao := false }),
   ("consultar_estoque",
    { name := "Consulta de Estoque",
      steps := ["Acessar sistema de gestão",
                "Buscar item no inventário",
                "Verificar quantidade disponível",
                "Validar localização no armazém"],
      estimated_time_hours := mkRat 1 10, difficulty := "easy",
      pode_automatizar := true, requer_aprovacao := false }),
   ("inspecao_basica",
    { name := "Inspeção Básica de Máquina",
      steps := ["Verificar nível de óleo",
                "Verificar nível de combustível",
                "Inspecionar correia",
                "Verificar pressão dos pneus",
                "Testar freios"],
      estimated_time_hours := mkRat 1 2, difficulty := "medium",
      pode_automatizar := false, requer_aprovacao := true })]

/-- `get_runbook_definition`. -/
def get_runbook_definition (runbook_name : String) : Option RunbookDef :=
  (RUNBOOK_DEFINITIONS.find? (fun p => p.1 = runbook_name)).map (fun p => p.2)

/-! ## Response builders (`utils/response_builders.py`) -/

/-- `build_insufficient_info_response` (default `reason` argument is passed
explicitly by callers of the model). -/
def build_insufficient_info_response (reason : String) : BrainResult :=
  { conhecimento := "informação insuficiente",
    riscos := "Não foi possível avaliar riscos sem informações da base de conhecimento.",
    recomendacoes := "Consulte um especialista técnico para análise detalhada.",
    fontes := [],
    procedimento_conhecido := false,
    nivel_complexidade := "alto",
    requer_especialista := true,
    method := "insufficient_info",
    reason := some reason }

/-- The default `reason` of `build_insufficient_info_response`. -/
def insufficient_info_default_reason : String :=
  "Informação insuficiente na base de conhecimento"

/-- `build_error_response`. -/
def build_error_response (error_message : String) : BrainResult :=
  { conhecimento := "Erro no processamento",
    riscos := "Sistema indisponível temporariamente.",
    recomendacoes := "Tente novamente em alguns instantes.",
    fontes := [],
    procedimento_conhecido := false,
    nivel_complexidade := "alto",
    requer_especialista := true,
    method := "error",
    error := some error_message }

/-- `build_fallback_response` (with its default `max_length = 500`). -/
def build_fallback_response (raw_response : String) : BrainResult :=
  { conhecimento := if raw_response.isEmpty then "Resposta não estruturada"
                    else raw_response.take 500,
    riscos := "Não foi possível estruturar a resposta adequadamente.",
    recomendacoes := "Revise a resposta manualmente.",
    fontes := [],
    procedimento_conhecido := false,
    nivel_complexidade := "alto",
    requer_especialista := true,
    method := "fallback",
    raw_response := some raw_response }

/-- `build_fallback_classification`: the keyword-heuristic classification
FieldSense returns when the reasoning call fails or its output does not
validate. -/
def build_fallback_classification (message : String) : FieldSenseData :=
  let message_lower := str_lower message
  let hit := fun (ws : List String) => ws.any (fun w => strContains message_lower w)
  let cs : String × String :=
    if hit ["quebrou", "falha", "parou", "defeito", "erro"] then ("falha_mecanica", "alta")
    else if hit ["estoque", "falta", "quantidade"] then ("estoque_insumos", "media")
    else if hit ["praga", "doenca", "fungo", "lagarta"] then ("fitossanidade", "alta")
    else ("outro", "media")
  { intencao := "Classificação por fallback - análise limitada",
    categoria := cs.1,
    entidades := {},
    confianca := mkRat 2 5,
    severidade := cs.2,
    observacoes := some "Classificação automática por palavras-chave (OpenAI indisponível)",
    perguntas_sugeridas := some
      ["Pode fornecer mais detalhes sobre o problema?",
       "Em qual máquina ou talhão isso está ocorrendo?",
       "Quando o problema começou?"] }

/-! ## RunbookMaster (`agents/runbook_master.py`) -/

/-- Outcomes of the external collaborators `RunbookMaster` consults during one
`_process_internal` run: whether `trigger_runbook` raises, the Boolean outcome
of the `random.random() < success_rate` draw, whether the work-order plugin
call raises, the business id Cosmos DB returns, and the uuid/clock values
`build_work_order_dict` generates. -/
structure RunbookOracle where
  trigger_error : Option String
  rand_success : Bool
  plugin_error : Bool
  cosmos_order_id : String
  gen_order_id : String
  gen_doc_id : String
  now : String
  deriving DecidableEq, Repr

/-- `RunbookMaster._can_automate`: the deterministic automation decision
matrix. -/
def _can_automate (categoria severidade nivel_complexidade : String)
    (requer_especialista : Bool) : Bool :=
  if requer_especialista then false
  else if nivel_complexidade = "alto" then false
  else if severidade = "alta" && strContains (str_lower categoria) "falha" then false
  else if (categoria = "estoque_insumos" || categoria = "duvida_operacional")
          && nivel_complexidade = "baixo" then true
  else false

/-- Runbook selection of `_execute_runbook`: category keyword match, with the
`erro` symptom test applied to Python `str(...)` of the symptom entry. -/
def select_runbook_name (categoria : String) (fd : FieldSenseData) : String :=
  if strContains (str_lower categoria) "estoque" then "consultar_estoque"
  else if strContains (str_lower categoria) "sistema_ti"
       || strContains (str_lower (pyStr fd.entidades.sintomas)) "erro" then "reset_sistema"
  else "inspecao_basica"

/-- One line of the simulated execution log for a completed step. -/
def passo_ok (i : Nat) (step : String) : String :=
  "✓ Passo " ++ toString i ++ ": " ++ step

/-- One line of the simulated execution log for the failed step. -/
def passo_failed (i : Nat) (step : String) : String :=
  "✗ Passo " ++ toString i ++ ": " ++ step ++ " - FALHOU"

/-- The step loop of `_execute_runbook`: on success every step is logged as
completed; on failure every step but the last is logged as completed, the
last is logged as failed, and the loop stops there.  Returns the log and
`steps_completed`. -/
def simulate_steps (steps : List String) (success : Bool) : List String × Nat :=
  let n := steps.length
  if success then
    (steps.enum.map (fun p => passo_ok (p.1 + 1) p.2), n)
  else
    (steps.enum.map (fun p =>
       if p.1 + 1 < n then passo_ok (p.1 + 1) p.2 else passo_failed (p.1 + 1) p.2),
     n - 1)

/-- `RunbookMaster._execute_runbook`.  The success rate (0.9 for easy
runbooks, 0.7 for medium ones) only weights the random draw; the sampled
Boolean outcome is the oracle input `rand_success`. -/
def _execute_runbook (categoria : String) (fd : FieldSenseData)
    (ro : RunbookOracle) : RunbookExecution :=
  let runbook_name := select_runbook_name categoria fd
  match get_runbook_definition runbook_name with
  | none =>
      { runbook_name := "Desconhecido", steps_completed := 0, total_steps := 0,
        success := false, execution_log := [],
        error_message := some "Runbook não encontrado" }
  | some runbook =>
      match ro.trigger_error with
      | some e =>
          { runbook_name := runbook.name, steps_completed := 0,
            total_steps := runbook.steps.length, success := false,
            execution_log := ["✗ Erro na execução: " ++ e],
            error_message := some e }
      | none =>
          let success := ro.rand_success
          let lc := simulate_steps runbook.steps success
          { runbook_name := runbook.name, steps_completed := lc.2,
            total_steps := runbook.steps.length, success := success,
            execution_log := lc.1,
            error_message := if success then none
                             else some ("Falha no passo " ++ toString (lc.2 + 1)) }

/-- `WorkOrderPlugin.build_work_order_dict`; uuid and clock values are
parameters. -/
def build_work_order_dict (gen_doc_id gen_order_id now : String)
    (title description category priority : String)
    (machine location symptoms : Option String)
    (assigned_specialist : String) (estimated_time_hours : ℚ) : WorkOrderDict :=
  { id := gen_doc_id,
    partition_key := "pending",
    order_id := gen_order_id,
    title := title,
    description := description,
    category := category,
    priority := priority,
    status := "pending",
    assigned_specialist := assigned_specialist,
    machine_id := machine,
    field_id := location,
    symptoms := symptoms,
    requester_id := none,
    requester_contact := none,
    estimated_time_hours := estimated_time_hours,
    created_at := now,
    updated_at := now,
    completed_at := none,
    notes := [],
    attachments := [] }

/-- The payload `_create_work_order` sends to the external ticketing
collaborator (`WorkOrderPlugin.create_work_order`): unlike the dict returned
to the orchestrator, its category is the one mapped through
`CATEGORY_MAPPING`. -/
structure TicketPayload where
  title : String
  description : String
  category : String
  priority : String
  deriving DecidableEq, Repr

/-- The ticketing payload built inside `RunbookMaster._create_work_order`. -/
def create_work_order_payload (fd : FieldSenseData) (ab : BrainResult) : TicketPayload :=
  { title := fd.intencao,
    description := fd.intencao ++ ". " ++ ab.conhecimento,
    category := map_category_to_schema fd.categoria,
    priority := get_priority_for_severity fd.severidade }

/-- `RunbookMaster._create_work_order`.  Note that the dict returned to the
orchestrator is built with the raw FieldSense `categoria`, not with the
mapped `schema_category` (only the persisted payload uses the mapping); on a
plugin failure the locally generated order id is kept, otherwise the id from
Cosmos DB replaces it. -/
def _create_work_order (fd : FieldSenseData) (ab : BrainResult)
    (ro : RunbookOracle) : RunbookResult :=
  let entidades := fd.entidades
  let categoria := fd.categoria
  let severidade := fd.severidade
  let specialist := get_specialist_for_category categoria
  let priority := get_priority_for_severity severidade
  let title := fd.intencao
  let description := title ++ ". " ++ ab.conhecimento
  let base := build_work_order_dict ro.gen_doc_id ro.gen_order_id ro.now
    title description categoria priority
    entidades.maquina entidades.talhao entidades.sintomas specialist 2
  let work_order_dict :=
    if ro.plugin_error then base
    else { base with order_id := ro.cosmos_order_id }
  { decision_type := DecisionType.CANNOT_AUTOMATE,
    action := "create_os",
    message := "📋 Ordem de serviço " ++ work_order_dict.order_id
               ++ " criada e encaminhada para " ++ specialist ++ ".",
    can_automate := false,
    work_order := some work_order_dict,
    runbook_execution := none }

/-- `RunbookMaster._escalate_to_human`. -/
def _escalate_to_human (reason : String) : RunbookResult :=
  { decision_type := DecisionType.PROCEDURE_UNKNOWN,
    action := "escalate",
    message := "⚠️ " ++ reason ++ ". Um especialista será notificado para auxiliá-lo.",
    can_automate := false,
    work_order := none,
    runbook_execution := none,
    escalation_reason := some reason }

/-- `RunbookMaster._process_internal`, reading the classification and
knowledge records the orchestrator placed in the context.  (In the failure
branch `error_message` is always a string; Python would format a null one as
`"None"`, which `pyStr` mirrors.) -/
def runbook_master_process (fd : FieldSenseData) (ab : BrainResult)
    (ro : RunbookOracle) : RunbookResult :=
  if ab.procedimento_conhecido = false then
    _escalate_to_human "Procedimento não encontrado na base de conhecimento"
  else if _can_automate fd.categoria fd.severidade ab.nivel_complexidade
         ab.requer_especialista then
    let runbook_result := _execute_runbook fd.categoria fd ro
    if runbook_result.success then
      { decision_type := DecisionType.EXECUTION_SUCCESS,
        action := "automate",
        message := "✓ Procedimento executado com sucesso: " ++ runbook_result.runbook_name,
        can_automate := true,
        runbook_execution := some runbook_result,
        work_order := none }
    else
      _escalate_to_human
        ("Falha na execução automática: " ++ pyStr runbook_result.error_message)
  else
    _create_work_order fd ab ro

/-! ## AgroBrain (`agents/agro_brain.py`) -/

/-- Outcome of the retrieval collaborator call
(`AzureSearchPlugin.search_knowledge_base`): the formatted result text, or an
exception. -/
inductive SearchOutcome where
  | found (text : String)
  | raised (e : String)
  deriving DecidableEq, Repr

/-- The fields of the pydantic `AgroBrainResponse` schema: what a validated
reasoning reply carries. -/
structure BrainReply where
  conhecimento : String
  riscos : String
  recomendacoes : String
  fontes : List String
  procedimento_conhecido : Bool
  nivel_complexidade : String
  requer_especialista : Bool
  deriving DecidableEq, Repr

/-- Outcome of the structured reasoning call as AgroBrain sees it: a reply
that validates against `AgroBrainResponse`, a reply whose shape fails
pydantic validation (carrying `str(response_dict)`), or an exception (which
also covers malformed JSON, since `invoke_structured_prompt` raises
`ValueError` on it). -/
inductive ReasoningOutcome where
  | valid (r : BrainReply)
  | invalid_shape (raw : String)
  | raised (e : String)
  deriving DecidableEq, Repr

/-- External outcomes consumed by one `AgroBrain._process_internal` run. -/
structure BrainOracle where
  search : SearchOutcome
  reasoning : ReasoningOutcome
  deriving DecidableEq, Repr

/-- Python `str.count(sub)` for a single-character pattern, as used for
`search_results_count`. -/
def count_char (s : String) (c : Char) : Nat :=
  (s.data.filter (fun x => x = c)).length

/-- `AgroBrain._process_internal`.  Returns the knowledge record together
with a flag recording whether the reasoning call was made.  Every branch
returns: the catch-all handler turns any exception into
`build_error_response`, and an empty or `"Nenhum resultado"` retrieval result
short-circuits to `build_insufficient_info_response` before any reasoning
call. -/
def agro_brain_process (o : BrainOracle) : BrainResult × Bool :=
  match o.search with
  | SearchOutcome.raised e => (build_error_response e, false)
  | SearchOutcome.found text =>
      if text.isEmpty || strContains text "Nenhum resultado" then
        (build_insufficient_info_response insufficient_info_default_reason, false)
      else
        match o.reasoning with
        | ReasoningOutcome.raised e => (build_error_response e, true)
        | ReasoningOutcome.invalid_shape raw => (build_fallback_response raw, true)
        | ReasoningOutcome.valid r =>
            ({ conhecimento := r.conhecimento,
               riscos := r.riscos,
               recomendacoes := r.recomendacoes,
               fontes := r.fontes,
               procedimento_conhecido := r.procedimento_conhecido,
               nivel_complexidade := r.nivel_complexidade,
               requer_especialista := r.requer_especialista,
               method := "semantic_kernel_rag",
               search_results_count := some (count_char text '[') }, true)

/-! ## FieldSense (`agents/field_sense.py`) -/

/-- Outcome of the classifier reasoning call: a reply validating against
`FieldSenseResponse`, a reply failing pydantic validation, or an exception
(including malformed JSON). -/
inductive ClassifierOutcome where
  | valid (r : FieldSenseData)
  | invalid_shape
  | raised (e : String)
  deriving DecidableEq, Repr

/-- `FieldSense._process_internal`: a validated reply is returned as is; both
failure paths return the keyword-heuristic fallback classification, so the
stage never raises. -/
def field_sense_process (message : String) (o : ClassifierOutcome) : FieldSenseData :=
  match o with
  | ClassifierOutcome.valid r => r
  | ClassifierOutcome.invalid_shape => build_fallback_classification message
  | ClassifierOutcome.raised _ => build_fallback_classification message

/-! ## Orchestrator (`core/orchestrator.py`) -/

/-- `FieldSense.CONFIDENCE_THRESHOLD = 0.55`. -/
def CONFIDENCE_THRESHOLD : ℚ := mkRat 11 20

/-- Outcome of one agent stage as the orchestrator sees it through
`SKBaseAgent.process`: a successful response carrying the stage data, or a
failed one (`success = False`, empty data). -/
inductive StageOutcome (α : Type) where
  | ok (data : α)
  | failed (error : String)
  deriving DecidableEq, Repr

/-- The RunbookMaster stage: either its wrapper reports failure, or
`_process_internal` runs on the given collaborator outcomes. -/
inductive RunbookStage where
  | failed (error : String)
  | run (ro : RunbookOracle)
  deriving DecidableEq, Repr

/-- All external outcomes consumed by one `Orchestrator.process` turn.
`explain_escalation` / `explain_final` are the `simplified_summary` the
ExplainIt stage yields on the escalation path and on the final path (`none`
when the stage fails and its data dict has no such key).
`validation_error_text` is the text of the pydantic `ValidationError` raised
when a greeting classification carries a null `observacoes` (see
`process_greeting`). -/
structure Oracle where
  fieldsense : StageOutcome FieldSenseData
  farmops_success : Bool
  agrobrain : StageOutcome BrainResult
  runbook : RunbookStage
  explain_escalation : Option String
  explain_final : Option String
  validation_error_text : String
  deriving DecidableEq, Repr

/-- `Orchestrator._build_error_response`. -/
def _build_error_response (error_message : String)
    (agent_responses : List AgentResponse) (decisions : List FlowDecision) :
    OrchestratorResponse :=
  { success := false,
    message := "⚠️ " ++ error_message ++ ". Por favor, tente novamente ou contate o suporte.",
    flow_state := FlowState.HUMAN_ESCALATION,
    decisions := decisions,
    agent_responses := agent_responses,
    work_order := none,
    clarification := none,
    runbook_execution := none }

/-- The top-level `except Exception` handler of `Orchestrator.process`
(lines 363-370): an unexpected exception with text `e` raised inside the
`try` block is turned into the generic error response, with `str(e)`
interpolated into the user-facing message. -/
def process_unexpected_exception (e : String)
    (agent_responses : List AgentResponse) (decisions : List FlowDecision) :
    OrchestratorResponse :=
  _build_error_response ("Erro no processamento: " ++ e) agent_responses decisions

/-- `Orchestrator._identify_missing_info`. -/
def _identify_missing_info (fd : FieldSenseData) : List String :=
  let entidades := fd.entidades
  let m1 := if !isTruthy entidades.maquina && !isTruthy entidades.localizacao
            then ["máquina ou local"] else []
  let m2 := if !isTruthy entidades.sintomas
            then ["sintomas ou descrição do problema"] else []
  let missing := m1 ++ m2
  if missing.isEmpty then ["detalhes adicionais"] else missing

/-- The audit entry appended for a stage invocation. -/
def mkAR (agent_name : String) (success : Bool) : AgentResponse :=
  { agent_name := agent_name, success := success }

/-- The greeting decision node (`categoria = "cumprimento"` branch). -/
def greeting_decision (confianca : ℚ) : FlowDecision :=
  { decision_type := DecisionType.INTENTION_UNCLEAR,
    agent_name := "FieldSense",
    reason := "Cumprimento recebido - aguardando descrição do problema",
    confidence := confianca,
    next_state := FlowState.NEEDS_CLARIFICATION }

/-- The low-confidence decision node.  (Python interpolates the confidence
formatted to two decimals into the reason; the model interpolates its exact
decimal rendering.) -/
def intention_unclear_decision (confianca : ℚ) : FlowDecision :=
  { decision_type := DecisionType.INTENTION_UNCLEAR,
    agent_name := "FieldSense",
    reason := "Confiança baixa (" ++ toString confianca ++ ") - informações insuficientes",
    confidence := confianca,
    next_state := FlowState.NEEDS_CLARIFICATION }

/-- The intention-clear decision node. -/
def intention_clear_decision (confianca : ℚ) : FlowDecision :=
  { decision_type := DecisionType.INTENTION_CLEAR,
    agent_name := "FieldSense",
    reason := "Intenção identificada com confiança " ++ toString confianca,
    confidence := confianca,
    next_state := FlowState.GATHERING_CONTEXT }

/-- The procedure-unknown decision node. -/
def procedure_unknown_decision : FlowDecision :=
  { decision_type := DecisionType.PROCEDURE_UNKNOWN,
    agent_name := "AgroBrain",
    reason := "Procedimento não encontrado na base de conhecimento",
    confidence := 0,
    next_state := FlowState.HUMAN_ESCALATION }

/-- The procedure-known decision node. -/
def procedure_known_decision : FlowDecision :=
  { decision_type := DecisionType.PROCEDURE_KNOWN,
    agent_name := "AgroBrain",
    reason := "Procedimento encontrado na base de conhecimento",
    confidence := mkRat 4 5,
    next_state := FlowState.AUTOMATION_CHECK }

/-- The can-automate decision node. -/
def can_automate_decision : FlowDecision :=
  { decision_type := DecisionType.CAN_AUTOMATE,
    agent_name := "RunbookMaster",
    reason := "Procedimento pode ser automatizado",
    confidence := mkRat 9 10,
    next_state := FlowState.RUNBOOK_EXECUTION }

/-- The execution-success decision node. -/
def execution_success_decision : FlowDecision :=
  { decision_type := DecisionType.EXECUTION_SUCCESS,
    agent_name := "RunbookMaster",
    reason := "Runbook executado com sucesso",
    confidence := 1,
    next_state := FlowState.EXECUTION_SUCCESS }

/-- The execution-failed decision node. -/
def execution_failed_decision : FlowDecision :=
  { decision_type := DecisionType.EXECUTION_FAILED,
    agent_name := "RunbookMaster",
    reason := "Falha na execução do runbook",
    confidence := mkRat 1 2,
    next_state := FlowState.EXECUTION_FAILED }

/-- The cannot-automate decision node for the work-order path. -/
def cannot_automate_os_decision : FlowDecision :=
  { decision_type := DecisionType.CANNOT_AUTOMATE,
    agent_name := "RunbookMaster",
    reason := "Requer intervenção especializada",
    confidence := mkRat 4 5,
    next_state := FlowState.WORK_ORDER_CREATED }

/-- The cannot-automate decision node for the escalation path. -/
def cannot_automate_escalate_decision : FlowDecision :=
  { decision_type := DecisionType.CANNOT_AUTOMATE,
    agent_name := "RunbookMaster",
    reason := "Encaminhado para análise humana",
    confidence := mkRat 7 10,
    next_state := FlowState.HUMAN_ESCALATION }

/-- The completed decision node appended after ExplainIt. -/
def completed_decision : FlowDecision :=
  { decision_type := DecisionType.EXECUTION_SUCCESS,
    agent_name := "ExplainIt",
    reason := "Explicação gerada e atendimento finalizado",
    confidence := 1,
    next_state := FlowState.COMPLETED }

/-- The two generic fallback clarification questions of the low-confidence
branch. -/
def generic_fallback_questions : List String :=
  ["Pode fornecer mais detalhes?", "Em qual máquina ou local isso está ocorrendo?"]

/-- The greeting branch (`categoria == "cumprimento"`).  `fieldsense_data`
always carries the `observacoes` key after `model_dump`, so
`dict.get("observacoes", default)` returns its value even when it is null; a
null value then fails the `ClarificationRequest` `List[str]` validation and
the top-level handler produces the generic error response
(`validation_error_text` is that exception's text). -/
def process_greeting (fd : FieldSenseData) (validation_error_text : String)
    (agent_responses : List AgentResponse) : OrchestratorResponse :=
  match fd.observacoes with
  | none =>
      process_unexpected_exception validation_error_text agent_responses
        [greeting_decision fd.confianca]
  | some greeting_response =>
      let clarification : ClarificationRequest :=
        { reason := "Initial greeting",
          missing_info := ["Description of the problem or question"],
          suggested_questions :=
            [greeting_response,
             "What is your question or need?",
             "Can you tell me what is happening?"],
          current_understanding := "Greeting received" }
      { success := true,
        message := String.intercalate "\n" clarification.suggested_questions,
        flow_state := FlowState.NEEDS_CLARIFICATION,
        decisions := [greeting_decision fd.confianca],
        agent_responses := agent_responses,
        work_order := none,
        clarification := some clarification,
        runbook_execution := none }

/-- The suggested-questions choice of the low-confidence branch:
`perguntas_sugeridas or [...]` falls back to the two generic questions when
the classifier supplied none or an empty list (Python treats both as
falsy). -/
def chosen_questions (fd : FieldSenseData) : List String :=
  match fd.perguntas_sugeridas with
  | some qs => if qs.isEmpty then generic_fallback_questions else qs
  | none => generic_fallback_questions

/-- The low-confidence clarification branch (continued): the response built
around the chosen questions and the missing-info heuristic. -/
def process_clarification (fd : FieldSenseData)
    (agent_responses : List AgentResponse) : OrchestratorResponse :=
  let suggested := chosen_questions fd
  let clarification : ClarificationRequest :=
    { reason := "Precisamos de mais informações para entender melhor (confiança: "
                ++ toString fd.confianca ++ ")",
      missing_info := _identify_missing_info fd,
      suggested_questions := suggested,
      current_understanding := fd.intencao }
  { success := true,
    message := String.intercalate "\n" clarification.suggested_questions,
    flow_state := FlowState.NEEDS_CLARIFICATION,
    decisions := [intention_unclear_decision fd.confianca],
    agent_responses := agent_responses,
    work_order := none,
    clarification := some clarification,
    runbook_execution := none }

/-- The fixed fallback explanation of the escalation branch. -/
def escalation_fallback_message : String :=
  "Não encontramos procedimento específico. Um especialista será notificado."

/-- The decision nodes appended for the RunbookMaster outcome (step 4 of
`Orchestrator.process`): branch on `action`, then on whether a runbook
execution exists and succeeded. -/
def runbook_outcome_decisions (rd : RunbookResult) : List FlowDecision :=
  if rd.action = "automate" then
    [can_automate_decision] ++
    (if (match rd.runbook_execution with
         | some r => r.success
         | none => false) then
       [execution_success_decision]
     else [execution_failed_decision])
  else if rd.action = "create_os" then [cannot_automate_os_decision]
  else [cannot_automate_escalate_decision]

/-- Steps 2-5 of `Orchestrator.process` (after a clear intention): FarmOps,
AgroBrain, the procedure-known branch, RunbookMaster, ExplainIt.  Note that
after ExplainIt runs, `final_state` is unconditionally overwritten with
`COMPLETED` and a final completed decision node is appended, so the runbook
outcome states survive only inside `decisions`. -/
def process_main (fd : FieldSenseData) (o : Oracle) : OrchestratorResponse :=
  let ars1 := [mkAR "FieldSense" true, mkAR "FarmOps" o.farmops_success]
  let ds1 := [intention_clear_decision fd.confianca]
  match o.agrobrain with
  | StageOutcome.failed _ =>
      _build_error_response "Erro na busca de conhecimento"
        (ars1 ++ [mkAR "AgroBrain" false]) ds1
  | StageOutcome.ok ab =>
      let ars2 := ars1 ++ [mkAR "AgroBrain" true]
      if ab.procedimento_conhecido = false then
        { success := true,
          message := (o.explain_escalation).getD escalation_fallback_message,
          flow_state := FlowState.HUMAN_ESCALATION,
          decisions := ds1 ++ [procedure_unknown_decision],
          agent_responses := ars2 ++ [mkAR "ExplainIt" (o.explain_escalation).isSome],
          work_order := none,
          clarification := none,
          runbook_execution := none }
      else
        let ds2 := ds1 ++ [procedure_known_decision]
        match o.runbook with
        | RunbookStage.failed _ =>
            _build_error_response "Erro na decisão de automação"
              (ars2 ++ [mkAR "RunbookMaster" false]) ds2
        | RunbookStage.run ro =>
            let rd := runbook_master_process fd ab ro
            let ds3 := ds2 ++ runbook_outcome_decisions rd
            { success := true,
              message := (o.explain_final).getD rd.message,
              flow_state := FlowState.COMPLETED,
              decisions := ds3 ++ [completed_decision],
              agent_responses := ars2 ++ [mkAR "RunbookMaster" true,
                                          mkAR "ExplainIt" (o.explain_final).isSome],
              work_order := rd.work_order,
              clarification := none,
              runbook_execution := rd.runbook_execution }

/-- `Orchestrator.process` as a function of the message and the external
outcomes of the turn.  Session-context seeding (lines 68-79) only enriches
the advisory prompt context of the classifier and is absorbed into the
`fieldsense` oracle outcome. -/
def process (_message : String) (o : Oracle) : OrchestratorResponse :=
  match o.fieldsense with
  | StageOutcome.failed _ =>
      _build_error_response "Erro na classificação da mensagem" [mkAR "FieldSense" false] []
  | StageOutcome.ok fd =>
      if fd.categoria = "cumprimento" then
        process_greeting fd o.validation_error_text [mkAR "FieldSense" true]
      else if fd.confianca < CONFIDENCE_THRESHOLD then
        process_clarification fd [mkAR "FieldSense" true]
      else
        process_main fd o

/-! ## Helper lemmas -/

/-- An empty needle occurs in every haystack, as in Python. -/
lemma charsContain_nil (l : List Char) : charsContain [] l = true := by
  cases l with
  | nil => rfl
  | cons c rest => simp [charsContain, List.isPrefixOf]

/-- A list is a prefix of itself followed by anything. -/
lemma isPrefixOf_append_self (l t : List Char) : List.isPrefixOf l (l ++ t) = true := by
  induction l with
  | nil => simp [List.isPrefixOf]
  | cons a l ih => simp [List.isPrefixOf, ih]

/-- A needle occurs in any haystack of the form `pre ++ needle ++ post`. -/
lemma charsContain_append (needle pre post : List Char) :
    charsContain needle (pre ++ (needle ++ post)) = true := by
  induction pre with
  | nil =>
      cases needle with
      | nil => exact charsContain_nil _
      | cons c cs => simp [charsContain, isPrefixOf_append_self]
  | cons a pre ih => simp [charsContain, ih]

/-- String-level version: `e` occurs in `a ++ e ++ b`. -/
lemma strContains_append_mid (a e b : String) : strContains (a ++ e ++ b) e = true := by
  unfold strContains
  have h : (a ++ e ++ b).data = a.data ++ (e.data ++ b.data) := by
    simp [String.data_append]
  rw [h]
  exact charsContain_append e.data a.data b.data

/-- `_identify_missing_info` never returns an empty list. -/
lemma identify_missing_info_ne_nil (fd : FieldSenseData) :
    _identify_missing_info fd ≠ [] := by
  unfold _identify_missing_info
  by_cases h1 : (!isTruthy fd.entidades.maquina && !isTruthy fd.entidades.localizacao) = true <;>
    by_cases h2 : (!isTruthy fd.entidades.sintomas) = true <;>
      simp [h1, h2]

/-- The fallback classification's category is one of the four heuristic
categories. -/
lemma fallback_categoria_cases (message : String) :
    (build_fallback_classification message).categoria = "falha_mecanica" ∨
    (build_fallback_classification message).categoria = "estoque_insumos" ∨
    (build_fallback_classification message).categoria = "fitossanidade" ∨
    (build_fallback_classification message).categoria = "outro" := by
  simp only [build_fallback_classification]
  split_ifs <;> simp

/-! ## Sample inputs shared by witnesses and counterexamples -/

/-- A clear mechanical-failure classification. -/
def fd_falha : FieldSenseData :=
  { intencao := "Diagnosticar fumaça azul na colheitadeira",
    categoria := "falha_mecanica",
    entidades := { maquina := some "CH670", sintomas := some "fumaça azul" },
    confianca := mkRat 9 10,
    severidade := "alta",
    observacoes := none,
    perguntas_sugeridas := none }

/-- A knowledge record with a documented procedure that requires a
specialist. -/
def ab_especialista : BrainResult :=
  { conhecimento := "Protocolo do fabricante para fumaça azul",
    riscos := "Risco de dano ao motor",
    recomendacoes := "Desligar a máquina",
    fontes := ["doc1"],
    procedimento_conhecido := true,
    nivel_complexidade := "medio",
    requer_especialista := true,
    method := "semantic_kernel_rag" }

/-- A supply-stock classification. -/
def fd_estoque : FieldSenseData :=
  { intencao := "Consultar estoque de sementes",
    categoria := "estoque_insumos",
    entidades := {},
    confianca := mkRat 4 5,
    severidade := "media",
    observacoes := none,
    perguntas_sugeridas := none }

/-- A low-complexity documented procedure needing no specialist. -/
def ab_estoque : BrainResult :=
  { conhecimento := "Procedimento de consulta documentado",
    riscos := "Baixo risco",
    recomendacoes := "Seguir o runbook",
    fontes := ["kb1"],
    procedimento_conhecido := true,
    nivel_complexidade := "baixo",
    requer_especialista := false,
    method := "semantic_kernel_rag" }

/-- Collaborator outcomes for a fully successful RunbookMaster run. -/
def ro_ok : RunbookOracle :=
  { trigger_error := none, rand_success := true, plugin_error := false,
    cosmos_order_id := "OS-12345678", gen_order_id := "OS-ABCDEF01",
    gen_doc_id := "uuid-doc-1", now := "2025-11-20T10:00:00" }

/-- Collaborator outcomes where the simulated runbook execution fails. -/
def ro_exec_failed : RunbookOracle :=
  { trigger_error := none, rand_success := false, plugin_error := false,
    cosmos_order_id := "OS-12345678", gen_order_id := "OS-ABCDEF01",
    gen_doc_id := "uuid-doc-1", now := "2025-11-20T10:00:00" }

/-! ## Claims -/

/-- Claim C1: for every classification and knowledge result, if
`requer_especialista` is true then the automation decision function returns
`can_automate = false` (and so does the record `_process_internal` returns),
irrespective of category, severity or complexity. -/
theorem requires_specialist_never_automates (fd : FieldSenseData)
    (ab : BrainResult) (ro : RunbookOracle) (h : ab.requer_especialista = true) :
    _can_automate fd.categoria fd.severidade ab.nivel_complexidade
      ab.requer_especialista = false ∧
    (runbook_master_process fd ab ro).can_automate = false := by
  have hca : _can_automate fd.categoria fd.severidade ab.nivel_complexidade
      ab.requer_especialista = false := by
    rw [h]; simp [_can_automate]
  refine ⟨hca, ?_⟩
  unfold runbook_master_process
  by_cases hp : ab.procedimento_conhecido = false
  · simp [hp, _escalate_to_human]
  · simp [hp, hca, _create_work_order]

/-- Witness for C1 at a concrete mechanical-failure turn. -/
theorem requires_specialist_never_automates_witness :
    _can_automate fd_falha.categoria fd_falha.severidade
      ab_especialista.nivel_complexidade ab_especialista.requer_especialista = false ∧
    (runbook_master_process fd_falha ab_especialista ro_ok).can_automate = false :=
  requires_specialist_never_automates fd_falha ab_especialista ro_ok rfl

/-- Claim C8: no result of the automation policy carries both a work order
and a runbook execution. -/
theorem never_both_work_order_and_runbook (fd : FieldSenseData)
    (ab : BrainResult) (ro : RunbookOracle) :
    (runbook_master_process fd ab ro).work_order = none ∨
    (runbook_master_process fd ab ro).runbook_execution = none := by
  unfold runbook_master_process
  by_cases hp : ab.procedimento_conhecido = false
  · left; simp [hp, _escalate_to_human]
  · by_cases hca : _can_automate fd.categoria fd.severidade ab.nivel_complexidade
        ab.requer_especialista = true
    · by_cases hs : (_execute_runbook fd.categoria fd ro).success = true
      · left; simp [hp, hca, hs]
      · left; simp [hp, hca, hs, _escalate_to_human]
    · right; simp [hp, hca, _create_work_order]

/-- Counterexample to claim C4: on a supply-stock, low-complexity,
no-specialist turn whose simulated runbook execution fails, the policy
escalates and the returned record carries no RunbookExecution (and reports
`can_automate = false`), contradicting "a non-null RunbookExecution for every
outcome of the simulated execution". -/
theorem supply_stock_execution_counterexample :
    _can_automate fd_estoque.categoria fd_estoque.severidade
      ab_estoque.nivel_complexidade ab_estoque.requer_especialista = true ∧
    (runbook_master_process fd_estoque ab_estoque ro_exec_failed).runbook_execution = none ∧
    (runbook_master_process fd_estoque ab_estoque ro_exec_failed).work_order = none ∧
    (runbook_master_process fd_estoque ab_estoque ro_exec_failed).can_automate = false ∧
    (runbook_master_process fd_estoque ab_estoque ro_exec_failed).action = "escalate" := by
  decide

/-- Claim C4 (amended): on a supply-stock turn with low complexity, no
specialist requirement and a known procedure, the decision function approves
automation and no WorkOrder is ever produced; a RunbookExecution is returned
exactly when the simulated execution succeeds (the trigger call does not
raise and the random draw succeeds) — on a failed execution the policy
escalates with neither artifact. -/
theorem supply_stock_low_complexity_amended (fd : FieldSenseData)
    (ab : BrainResult) (ro : RunbookOracle)
    (hcat : fd.categoria = "estoque_insumos")
    (hcomp : ab.nivel_complexidade = "baixo")
    (hspec : ab.requer_especialista = false)
    (hknown : ab.procedimento_conhecido = true) :
    _can_automate fd.categoria fd.severidade ab.nivel_complexidade
      ab.requer_especialista = true ∧
    (runbook_master_process fd ab ro).work_order = none ∧
    ((runbook_master_process fd ab ro).runbook_execution ≠ none ↔
       (ro.trigger_error = none ∧ ro.rand_success = true)) := by
  have hfal : strContains (str_lower "estoque_insumos") "falha" = false := by decide
  have hca : _can_automate fd.categoria fd.severidade ab.nivel_complexidade
      ab.requer_especialista = true := by
    rw [hcat, hcomp, hspec]
    simp [_can_automate, hfal]
  have hsel : select_runbook_name fd.categoria fd = "consultar_estoque" := by
    have hest : strContains (str_lower "estoque_insumos") "estoque" = true := by decide
    rw [select_runbook_name, hcat]
    simp [hest]
  obtain ⟨rb, hdef⟩ : ∃ rb, get_runbook_definition "consultar_estoque" = some rb := ⟨_, rfl⟩
  refine ⟨hca, ?_, ?_⟩
  · unfold runbook_master_process
    rcases ht : ro.trigger_error with _ | e
    · cases hr : ro.rand_success
      · simp [hknown, hca, _execute_runbook, hsel, hdef, ht, hr, _escalate_to_human]
      · simp [hknown, hca, _execute_runbook, hsel, hdef, ht, hr]
    · simp [hknown, hca, _execute_runbook, hsel, hdef, ht, _escalate_to_human]
  · unfold runbook_master_process
    rcases ht : ro.trigger_error with _ | e
    · cases hr : ro.rand_success
      · simp [hknown, hca, _execute_runbook, hsel, hdef, ht, hr, _escalate_to_human]
      · simp [hknown, hca, _execute_runbook, hsel, hdef, ht, hr]
    · simp [hknown, hca, _execute_runbook, hsel, hdef, ht, _escalate_to_human]

/-- Witness for the amended C4 at a concrete successful execution. -/
theorem supply_stock_low_complexity_amended_witness :
    _can_automate fd_estoque.categoria fd_estoque.severidade
      ab_estoque.nivel_complexidade ab_estoque.requer_especialista = true ∧
    (runbook_master_process fd_estoque ab_estoque ro_ok).work_order = none ∧
    ((runbook_master_process fd_estoque ab_estoque ro_ok).runbook_execution ≠ none ↔
       (ro_ok.trigger_error = none ∧ ro_ok.rand_success = true)) :=
  supply_stock_low_complexity_amended fd_estoque ab_estoque ro_ok rfl rfl rfl rfl

/-- Claim C9: the knowledge resolver never raises; an empty (or
`"Nenhum resultado"`) retrieval result yields the fixed insufficient-info
record without a reasoning call, and every exception path yields the same
failure mode (`procedimento_conhecido = false`, complexity `alto`, specialist
required, no sources). -/
theorem knowledge_resolver_failure_modes (o : BrainOracle) :
    (∀ t, o.search = SearchOutcome.found t →
       (t.isEmpty || strContains t "Nenhum resultado") = true →
       agro_brain_process o =
         (build_insufficient_info_response insufficient_info_default_reason, false)) ∧
    (∀ e, o.search = SearchOutcome.raised e ∨ o.reasoning = ReasoningOutcome.raised e →
       (agro_brain_process o).1.procedimento_conhecido = false ∧
       (agro_brain_process o).1.nivel_complexidade = "alto" ∧
       (agro_brain_process o).1.requer_especialista = true ∧
       (agro_brain_process o).1.fontes = []) := by
  constructor
  · intro t ht hcond
    simp [agro_brain_process, ht, hcond]
  · intro e he
    rcases ho : o.search with t | e2
    · by_cases hc : (t.isEmpty || strContains t "Nenhum resultado") = true
      · simp [agro_brain_process, ho, hc, build_insufficient_info_response]
      · rcases he with he | he
        · rw [ho] at he; simp at he
        · simp [agro_brain_process, ho, hc, he, build_error_response]
    · simp [agro_brain_process, ho, build_error_response]

/-- A retrieval outcome with no snippets. -/
def bo_empty : BrainOracle :=
  { search := SearchOutcome.found "",
    reasoning := ReasoningOutcome.valid
      { conhecimento := "k", riscos := "r", recomendacoes := "c", fontes := [],
        procedimento_conhecido := true, nivel_complexidade := "baixo",
        requer_especialista := false } }

/-- Witness for C9 at a concrete empty retrieval result. -/
theorem knowledge_resolver_failure_modes_witness :
    agro_brain_process bo_empty =
      (build_insufficient_info_response insufficient_info_default_reason, false) :=
  (knowledge_resolver_failure_modes bo_empty).1 "" rfl (by decide)

/-- Claim C10: when the classifier reply fails validation or the reasoning
call raises, FieldSense returns the keyword fallback classification, whose
confidence is exactly 0.4 and whose category is never `cumprimento`; since
0.4 < 0.55, such a turn short-circuits to needs-clarification and runs no
stage beyond FieldSense. -/
theorem classifier_fallback_forces_clarification (message : String)
    (co : ClassifierOutcome) (o : Oracle)
    (hco : co = ClassifierOutcome.invalid_shape ∨
           ∃ e, co = ClassifierOutcome.raised e)
    (hfs : o.fieldsense = StageOutcome.ok (field_sense_process message co)) :
    field_sense_process message co = build_fallback_classification message ∧
    (build_fallback_classification message).confianca = mkRat 2 5 ∧
    (build_fallback_classification message).categoria ≠ "cumprimento" ∧
    (build_fallback_classification message).confianca < CONFIDENCE_THRESHOLD ∧
    (process message o).flow_state = FlowState.NEEDS_CLARIFICATION ∧
    (process message o).agent_responses = [mkAR "FieldSense" true] := by
  have hfb : field_sense_process message co = build_fallback_classification message := by
    rcases hco with h | ⟨e, h⟩ <;> rw [h] <;> rfl
  have hconf : (build_fallback_classification message).confianca = mkRat 2 5 := rfl
  have hcat : (build_fallback_classification message).categoria ≠ "cumprimento" := by
    rcases fallback_categoria_cases message with h | h | h | h <;> rw [h] <;> decide
  have hlt : (build_fallback_classification message).confianca < CONFIDENCE_THRESHOLD := by
    rw [hconf]; decide
  have hfs2 : o.fieldsense = StageOutcome.ok (build_fallback_classification message) := by
    rw [hfb] at hfs; exact hfs
  have hres : process message o =
      process_clarification (build_fallback_classification message)
        [mkAR "FieldSense" true] := by
    simp [process, hfs2, hcat, hlt]
  exact ⟨hfb, hconf, hcat, hlt, by rw [hres]; rfl, by rw [hres]; rfl⟩

/-- A turn whose classifier reply fails validation. -/
def o_c10 : Oracle :=
  { fieldsense := StageOutcome.ok
      (field_sense_process "ajuda" ClassifierOutcome.invalid_shape),
    farmops_success := true,
    agrobrain := StageOutcome.ok ab_estoque,
    runbook := RunbookStage.run ro_ok,
    explain_escalation := none,
    explain_final := none,
    validation_error_text := "verr" }

/-- Witness for C10 at a concrete vague message. -/
theorem classifier_fallback_forces_clarification_witness :
    field_sense_process "ajuda" ClassifierOutcome.invalid_shape =
      build_fallback_classification "ajuda" ∧
    (build_fallback_classification "ajuda").confianca = mkRat 2 5 ∧
    (build_fallback_classification "ajuda").categoria ≠ "cumprimento" ∧
    (build_fallback_classification "ajuda").confianca < CONFIDENCE_THRESHOLD ∧
    (process "ajuda" o_c10).flow_state = FlowState.NEEDS_CLARIFICATION ∧
    (process "ajuda" o_c10).agent_responses = [mkAR "FieldSense" true] :=
  classifier_fallback_forces_clarification "ajuda" ClassifierOutcome.invalid_shape
    o_c10 (Or.inl rfl) rfl

/-- The chosen clarification questions are never empty. -/
lemma chosen_questions_ne_nil (fd : FieldSenseData) : chosen_questions fd ≠ [] := by
  unfold chosen_questions
  rcases fd.perguntas_sugeridas with _ | qs
  · simp [generic_fallback_questions]
  · by_cases he : qs.isEmpty
    · simp [he, generic_fallback_questions]
    · have hq : qs ≠ [] := by
        intro hnil
        subst hnil
        exact he rfl
      simp [he, hq]

/-- Claim C2: a successful knowledge stage reporting an unknown procedure
ends the turn in human escalation with no WorkOrder and no RunbookExecution,
after one Explainer run whose missing summary falls back to the fixed
message. -/
theorem procedure_unknown_escalates_without_artifacts (message : String)
    (o : Oracle) (fd : FieldSenseData) (ab : BrainResult)
    (hfs : o.fieldsense = StageOutcome.ok fd)
    (hgr : fd.categoria ≠ "cumprimento")
    (hconf : ¬ fd.confianca < CONFIDENCE_THRESHOLD)
    (hab : o.agrobrain = StageOutcome.ok ab)
    (hpk : ab.procedimento_conhecido = false) :
    (process message o).success = true ∧
    (process message o).flow_state = FlowState.HUMAN_ESCALATION ∧
    (process message o).work_order = none ∧
    (process message o).runbook_execution = none ∧
    (process message o).message =
      (o.explain_escalation).getD escalation_fallback_message ∧
    (process message o).agent_responses.map AgentResponse.agent_name =
      ["FieldSense", "FarmOps", "AgroBrain", "ExplainIt"] := by
  have hres : process message o = process_main fd o := by
    simp [process, hfs, hgr, hconf]
  rw [hres]
  refine ⟨?_, ?_, ?_, ?_, ?_, ?_⟩ <;> simp [process_main, hab, hpk, mkAR]

/-- A knowledge record for an undocumented procedure. -/
def ab_unknown : BrainResult :=
  build_insufficient_info_response insufficient_info_default_reason

/-- A turn whose knowledge stage succeeds but knows no procedure. -/
def o_c2 : Oracle :=
  { fieldsense := StageOutcome.ok fd_falha,
    farmops_success := true,
    agrobrain := StageOutcome.ok ab_unknown,
    runbook := RunbookStage.run ro_ok,
    explain_escalation := some "Encaminhamos seu caso a um especialista.",
    explain_final := none,
    validation_error_text := "verr" }

/-- Witness for C2 at a concrete unknown-procedure turn. -/
theorem procedure_unknown_escalates_without_artifacts_witness :
    (process "fumaça azul ch670" o_c2).success = true ∧
    (process "fumaça azul ch670" o_c2).flow_state = FlowState.HUMAN_ESCALATION ∧
    (process "fumaça azul ch670" o_c2).work_order = none ∧
    (process "fumaça azul ch670" o_c2).runbook_execution = none ∧
    (process "fumaça azul ch670" o_c2).message =
      (o_c2.explain_escalation).getD escalation_fallback_message ∧
    (process "fumaça azul ch670" o_c2).agent_responses.map AgentResponse.agent_name =
      ["FieldSense", "FarmOps", "AgroBrain", "ExplainIt"] :=
  procedure_unknown_escalates_without_artifacts "fumaça azul ch670" o_c2
    fd_falha ab_unknown rfl (by decide) (by decide) rfl rfl

/-- Claim C7: a successful classification with confidence below 0.55 and a
non-greeting category yields needs-clarification with a non-empty suggested
question list (the classifier's own questions or the two generic ones) and a
non-empty missing-info list. -/
theorem low_confidence_needs_clarification (message : String) (o : Oracle)
    (fd : FieldSenseData)
    (hfs : o.fieldsense = StageOutcome.ok fd)
    (hgr : fd.categoria ≠ "cumprimento")
    (hconf : fd.confianca < CONFIDENCE_THRESHOLD) :
    (process message o).flow_state = FlowState.NEEDS_CLARIFICATION ∧
    ∃ c, (process message o).clarification = some c ∧
      c.suggested_questions = chosen_questions fd ∧
      c.suggested_questions ≠ [] ∧
      c.missing_info = _identify_missing_info fd ∧
      c.missing_info ≠ [] := by
  have hres : process message o = process_clarification fd [mkAR "FieldSense" true] := by
    simp [process, hfs, hgr, hconf]
  rw [hres]
  exact ⟨rfl, _, rfl, rfl, chosen_questions_ne_nil fd, rfl,
         identify_missing_info_ne_nil fd⟩

/-- A vague classification below the confidence threshold. -/
def fd_vago : FieldSenseData :=
  { intencao := "Pedido vago de ajuda",
    categoria := "outro",
    entidades := {},
    confianca := mkRat 3 10,
    severidade := "media",
    observacoes := none,
    perguntas_sugeridas := none }

/-- A turn with a vague classification. -/
def o_c7 : Oracle :=
  { fieldsense := StageOutcome.ok fd_vago,
    farmops_success := true,
    agrobrain := StageOutcome.ok ab_estoque,
    runbook := RunbookStage.run ro_ok,
    explain_escalation := none,
    explain_final := none,
    validation_error_text := "verr" }

/-- Witness for C7 at a concrete vague message. -/
theorem low_confidence_needs_clarification_witness :
    (process "ajuda" o_c7).flow_state = FlowState.NEEDS_CLARIFICATION ∧
    ∃ c, (process "ajuda" o_c7).clarification = some c ∧
      c.suggested_questions = chosen_questions fd_vago ∧
      c.suggested_questions ≠ [] ∧
      c.missing_info = _identify_missing_info fd_vago ∧
      c.missing_info ≠ [] :=
  low_confidence_needs_clarification "ajuda" o_c7 fd_vago rfl (by decide) (by decide)

/-- A turn whose knowledge stage finds a documented procedure that requires a
specialist, so the policy creates a work order. -/
def o_c5 : Oracle :=
  { fieldsense := StageOutcome.ok fd_falha,
    farmops_success := true,
    agrobrain := StageOutcome.ok ab_especialista,
    runbook := RunbookStage.run ro_ok,
    explain_escalation := none,
    explain_final := some "Ordem de serviço criada.",
    validation_error_text := "verr" }

/-- Counterexample to claim C5: on a concrete work-order turn the returned
flow state is `completed` (not `work_order_created`, which only survives
inside the decision trail), and the returned WorkOrder carries the raw
classifier category `falha_mecanica` rather than the `maquinario` value of
the fixed mapping table. -/
theorem work_order_flow_counterexample :
    (process "fumaça azul ch670" o_c5).flow_state = FlowState.COMPLETED ∧
    (process "fumaça azul ch670" o_c5).flow_state ≠ FlowState.WORK_ORDER_CREATED ∧
    ((process "fumaça azul ch670" o_c5).work_order.map WorkOrderDict.category) =
      some "falha_mecanica" ∧
    map_category_to_schema "falha_mecanica" = "maquinario" := by
  decide

/-- Claim C5 (amended): when automation is denied and the policy creates a
work order, the turn returns `flow_state = completed` (the
`work_order_created` state is recorded as the `next_state` of the
cannot-automate decision) together with a non-null WorkOrder whose category
is the raw classifier category and whose specialist comes from the fixed
category-to-specialist table; only the payload persisted through the
ticketing collaborator carries the category mapped through the fixed
category table. -/
theorem work_order_flow_amended (message : String) (o : Oracle)
    (fd : FieldSenseData) (ab : BrainResult) (ro : RunbookOracle)
    (hfs : o.fieldsense = StageOutcome.ok fd)
    (hgr : fd.categoria ≠ "cumprimento")
    (hconf : ¬ fd.confianca < CONFIDENCE_THRESHOLD)
    (hab : o.agrobrain = StageOutcome.ok ab)
    (hpk : ab.procedimento_conhecido = true)
    (hrb : o.runbook = RunbookStage.run ro)
    (hca : _can_automate fd.categoria fd.severidade ab.nivel_complexidade
             ab.requer_especialista = false) :
    (process message o).success = true ∧
    (process message o).flow_state = FlowState.COMPLETED ∧
    (process message o).decisions.map FlowDecision.next_state =
      [FlowState.GATHERING_CONTEXT, FlowState.AUTOMATION_CHECK,
       FlowState.WORK_ORDER_CREATED, FlowState.COMPLETED] ∧
    (∃ w, (process message o).work_order = some w ∧
       w.category = fd.categoria ∧
       w.assigned_specialist = get_specialist_for_category fd.categoria) ∧
    (process message o).runbook_execution = none ∧
    (create_work_order_payload fd ab).category = map_category_to_schema fd.categoria := by
  have hres : process message o = process_main fd o := by
    simp [process, hfs, hgr, hconf]
  have hrd : runbook_master_process fd ab ro = _create_work_order fd ab ro := by
    unfold runbook_master_process
    simp [hpk, hca]
  have hact : (_create_work_order fd ab ro).action = "create_os" := rfl
  have hdec : runbook_outcome_decisions (_create_work_order fd ab ro) =
      [cannot_automate_os_decision] := by
    unfold runbook_outcome_decisions
    rw [hact, if_neg (by decide : ¬("create_os" = "automate")),
        if_pos (rfl : "create_os" = "create_os")]
  have hw : ∃ w, (_create_work_order fd ab ro).work_order = some w ∧
      w.category = fd.categoria ∧
      w.assigned_specialist = get_specialist_for_category fd.categoria := by
    unfold _create_work_order build_work_order_dict
    by_cases hpe : ro.plugin_error = true
    · simp only [hpe, if_pos]
      exact ⟨_, rfl, rfl, rfl⟩
    · simp only [hpe, if_neg, Bool.false_eq_true, ite_false]
      exact ⟨_, rfl, rfl, rfl⟩
  rw [hres]
  refine ⟨?_, ?_, ?_, ?_, ?_, rfl⟩
  · simp [process_main, hab, hpk, hrb]
  · simp [process_main, hab, hpk, hrb]
  · simp [process_main, hab, hpk, hrb, hrd, hdec, cannot_automate_os_decision,
          intention_clear_decision, procedure_known_decision, completed_decision]
  · have hwo : (process_main fd o).work_order = (_create_work_order fd ab ro).work_order := by
      simp [process_main, hab, hpk, hrb, hrd]
    rw [hwo]
    exact hw
  · simp [process_main, hab, hpk, hrb, hrd, _create_work_order]

/-- Witness for the amended C5 at a concrete specialist-required turn. -/
theorem work_order_flow_amended_witness :
    (process "fumaça azul ch670" o_c5).success = true ∧
    (process "fumaça azul ch670" o_c5).flow_state = FlowState.COMPLETED ∧
    (process "fumaça azul ch670" o_c5).decisions.map FlowDecision.next_state =
      [FlowState.GATHERING_CONTEXT, FlowState.AUTOMATION_CHECK,
       FlowState.WORK_ORDER_CREATED, FlowState.COMPLETED] ∧
    (∃ w, (process "fumaça azul ch670" o_c5).work_order = some w ∧
       w.category = fd_falha.categoria ∧
       w.assigned_specialist = get_specialist_for_category fd_falha.categoria) ∧
    (process "fumaça azul ch670" o_c5).runbook_execution = none ∧
    (create_work_order_payload fd_falha ab_especialista).category =
      map_category_to_schema fd_falha.categoria :=
  work_order_flow_amended "fumaça azul ch670" o_c5 fd_falha ab_especialista ro_ok
    rfl (by decide) (by decide) rfl rfl rfl (by decide)

/-- A turn whose knowledge stage fails after a clear intention was recorded.
The error response forces `human_escalation` while the last recorded decision
points at `gathering_context`. -/
def o_c3 : Oracle :=
  { fieldsense := StageOutcome.ok fd_falha,
    farmops_success := true,
    agrobrain := StageOutcome.failed "IndexError",
    runbook := RunbookStage.run ro_ok,
    explain_escalation := none,
    explain_final := none,
    validation_error_text := "verr" }

/-- Counterexample to claim C3: on a knowledge-stage failure the returned
flow state is `human_escalation` while the last entry of `decisions` has
`next_state = gathering_context`, so the returned flow state does not equal
the last decision's next state on every branch. -/
theorem flow_state_last_decision_counterexample :
    (process "fumaça azul ch670" o_c3).flow_state = FlowState.HUMAN_ESCALATION ∧
    ((process "fumaça azul ch670" o_c3).decisions.getLast?).map FlowDecision.next_state =
      some FlowState.GATHERING_CONTEXT ∧
    FlowState.GATHERING_CONTEXT ≠ FlowState.HUMAN_ESCALATION := by
  decide

/-- Claim C3 (amended): on every successful return the decisions list is
non-empty and the returned flow state equals the `next_state` of its last
entry; on every unsuccessful return (the stage-failure and
unexpected-exception branches) the flow state is `human_escalation`
regardless of the decisions recorded so far, which may be empty or end in a
different state. -/
theorem flow_state_last_decision_amended (message : String) (o : Oracle) :
    ((process message o).success = true →
       (process message o).decisions ≠ [] ∧
       ((process message o).decisions.getLast?).map FlowDecision.next_state =
         some (process message o).flow_state) ∧
    ((process message o).success = false →
       (process message o).flow_state = FlowState.HUMAN_ESCALATION) := by
  obtain ⟨fs, fo, abr, rb, ee, ef, vet⟩ := o
  cases fs with
  | failed e => simp [process, _build_error_response]
  | ok fd =>
    by_cases hgr : fd.categoria = "cumprimento"
    · cases hobs : fd.observacoes with
      | none =>
          simp [process, hgr, process_greeting, hobs, process_unexpected_exception,
                _build_error_response]
      | some g =>
          simp [process, hgr, process_greeting, hobs, greeting_decision]
    · by_cases hconf : fd.confianca < CONFIDENCE_THRESHOLD
      · simp [process, hgr, hconf, process_clarification, intention_unclear_decision]
      · cases abr with
        | failed e =>
            simp [process, hgr, hconf, process_main, _build_error_response]
        | ok ab =>
          by_cases hpk : ab.procedimento_conhecido = false
          · simp [process, hgr, hconf, process_main, hpk,
                  intention_clear_decision, procedure_unknown_decision]
          · cases rb with
            | failed e =>
                simp [process, hgr, hconf, process_main, hpk, _build_error_response]
            | run ro =>
                simp [process, hgr, hconf, process_main, hpk, completed_decision]
                exact ⟨_, by rw [← List.cons_append, List.getLast?_concat], rfl⟩

/-- Witness for the amended C3 at a concrete successful turn. -/
theorem flow_state_last_decision_amended_witness :
    (process "fumaça azul ch670" o_c5).decisions ≠ [] ∧
    ((process "fumaça azul ch670" o_c5).decisions.getLast?).map FlowDecision.next_state =
      some (process "fumaça azul ch670" o_c5).flow_state :=
  (flow_state_last_decision_amended "fumaça azul ch670" o_c5).1 (by decide)

/-- Counterexample to claim C6: the top-level exception handler's user-facing
message does contain the exception's string (here the full text
`division by zero`), so internal error text is leaked. -/
theorem exception_message_leak_counterexample :
    strContains (process_unexpected_exception "division by zero" [] []).message
      "division by zero" = true ∧
    (process_unexpected_exception "division by zero" [] []).success = false ∧
    (process_unexpected_exception "division by zero" [] []).flow_state =
      FlowState.HUMAN_ESCALATION := by
  decide

/-- Claim C6 (amended): every unexpected exception inside the `try` block of
`process` is caught and returned as `success = false` with
`flow_state = human_escalation`, but the user-facing message is the fixed
template with the exception's string interpolated — the internal error text
is leaked, not suppressed. -/
theorem exception_handler_amended (e : String)
    (ars : List AgentResponse) (ds : List FlowDecision) :
    (process_unexpected_exception e ars ds).success = false ∧
    (process_unexpected_exception e ars ds).flow_state = FlowState.HUMAN_ESCALATION ∧
    (process_unexpected_exception e ars ds).message =
      "⚠️ " ++ ("Erro no processamento: " ++ e)
        ++ ". Por favor, tente novamente ou contate o suporte." ∧
    strContains (process_unexpected_exception e ars ds).message e = true := by
  refine ⟨rfl, rfl, rfl, ?_⟩
  show charsContain e.data
    (("⚠️ " ++ ("Erro no processamento: " ++ e)
       ++ ". Por favor, tente novamente ou contate o suporte.").data) = true
  have hd : ("⚠️ " ++ ("Erro no processamento: " ++ e)
       ++ ". Por favor, tente novamente ou contate o suporte.").data =
      ("⚠️ ".data ++ "Erro no processamento: ".data) ++
        (e.data ++ ". Por favor, tente novamente ou contate o suporte.".data) := by
    simp [String.data_append]
  rw [hd]
  exact charsContain_append e.data _ _

end AgroHelpDesk
